import Mathlib

/-!
Shallow embedding of the VEIKK digitizer driver (`hid-veikk.c`) and proofs
about its frame decoder, bitmap state merger, and activation sequencer.

Byte buffers are modelled as `List Nat`; every read of a `u8` cell goes through
`byteAt`, which truncates modulo 256 exactly as the `u8` storage does.  Every
store into a `u16`/`u8` device field is truncated modulo `2^16`/`2^8`,
mirroring the C integer conversions on assignment.
-/

namespace Veikk

/-- Read of one cell of a C `u8` buffer; out-of-range reads are 0 and the
`% 256` reflects the 8-bit storage width. -/
def byteAt (data : List Nat) (i : Nat) : Nat := data.getD i 0 % 256

/-- C `get_unaligned_le16`: unsigned little-endian 16-bit read of two bytes. -/
def get_unaligned_le16 (b0 b1 : Nat) : Nat := b0 % 256 + 256 * (b1 % 256)

/-- Report type constant `VEIKK_PEN_REPORT` (hid-veikk.c line 34). -/
def VEIKK_PEN_REPORT : Nat := 0x41

/-- Report type constant `VEIKK_BUTTON_REPORT` (hid-veikk.c line 35). -/
def VEIKK_BUTTON_REPORT : Nat := 0x42

/-- Report type constant `VEIKK_PAD_REPORT` (hid-veikk.c line 36). -/
def VEIKK_PAD_REPORT : Nat := 0x43

/-- Linux `EINVAL` error number, as used by `veikk_raw_event`. -/
def EINVAL : Int := 22

/-- `struct veikk_model` (hid-veikk.c lines 61-64): per-model capability
descriptor.  The C `int` capability flags appear only in truthiness tests, so
they are carried as `Bool`. -/
structure veikk_model where
  name : String
  prod_id : Nat
  x_max : Nat
  y_max : Nat
  pressure_max : Nat
  has_buttons : Bool
  has_pad : Bool
deriving Repr, DecidableEq

/-- `veikk_model_0x0001` (hid-veikk.c lines 559-562). -/
def veikk_model_0x0001 : veikk_model :=
  ⟨"VEIKK S640", 0x0001, 30480, 20320, 8192, false, false⟩

/-- `veikk_model_0x0002` (hid-veikk.c lines 563-567). -/
def veikk_model_0x0002 : veikk_model :=
  ⟨"VEIKK A30", 0x0002, 32768, 32768, 8192, true, true⟩

/-- `veikk_model_0x0003` (hid-veikk.c lines 568-572). -/
def veikk_model_0x0003 : veikk_model :=
  ⟨"VEIKK A50", 0x0003, 50800, 30480, 8192, true, true⟩

/-- `veikk_model_0x0004` (hid-veikk.c lines 573-577). -/
def veikk_model_0x0004 : veikk_model :=
  ⟨"VEIKK A15", 0x0004, 32768, 32768, 8192, true, true⟩

/-- `veikk_model_0x0006` (hid-veikk.c lines 578-582). -/
def veikk_model_0x0006 : veikk_model :=
  ⟨"VEIKK A15 Pro", 0x0006, 32768, 32768, 8192, true, true⟩

/-- `veikk_model_0x1001` (hid-veikk.c lines 583-587). -/
def veikk_model_0x1001 : veikk_model :=
  ⟨"VEIKK VK1560", 0x1001, 34420, 19360, 8192, true, false⟩

/-- The mutable state of `struct veikk_device` (hid-veikk.c lines 67-78) that
the decode path touches: the model reference and the three persisted bitmaps.
`buttons_state` is a `u16`, `pad_state` and `wheel_state` are `u8`. -/
structure veikk_device where
  model : veikk_model
  buttons_state : Nat
  pad_state : Nat
  wheel_state : Nat
deriving Repr, DecidableEq

/-- Device context freshly allocated by `veikk_probe` via `devm_kzalloc`
(hid-veikk.c lines 504-512): all three bitmaps start at zero. -/
def veikk_probe_device (model : veikk_model) : veikk_device :=
  { model := model, buttons_state := 0, pad_state := 0, wheel_state := 0 }

/-- Key codes reported through `input_report_key`; named after the Linux
input-event-codes macros used in hid-veikk.c (0x118 and 0x119 are the two
unassigned codes chosen for the 11th and 12th numbered buttons). -/
inductive key_code where
  | BTN_TOUCH | BTN_STYLUS | BTN_STYLUS2
  | BTN_0 | BTN_1 | BTN_2 | BTN_3 | BTN_4 | BTN_5 | BTN_6 | BTN_7 | BTN_8 | BTN_9
  | BTN_0x118 | BTN_0x119
  | BTN_WHEEL | BTN_GEAR_DOWN | BTN_GEAR_UP
  | BTN_NORTH | BTN_SOUTH | BTN_WEST | BTN_EAST
  | BTN_TOOL_DOUBLETAP
deriving Repr, DecidableEq

/-- Absolute axes reported through `input_report_abs`. -/
inductive abs_axis where
  | ABS_X | ABS_Y | ABS_PRESSURE
deriving Repr, DecidableEq

/-- One event forwarded to the input core: `input_report_key` sends a key code
with a truthiness value, `input_report_abs` an axis with a value. -/
inductive input_event where
  | key : key_code → Bool → input_event
  | abs : abs_axis → Nat → input_event
deriving Repr, DecidableEq

/-- `veikk_pen_event` (hid-veikk.c lines 183-198), acting on the 7-byte
payload that follows the id and type bytes.  Stateless: it only emits
events. -/
def veikk_pen_event (data : List Nat) : List input_event :=
  [ .abs .ABS_X (get_unaligned_le16 (byteAt data 1) (byteAt data 2)),
    .abs .ABS_Y (get_unaligned_le16 (byteAt data 3) (byteAt data 4)),
    .abs .ABS_PRESSURE (get_unaligned_le16 (byteAt data 5) (byteAt data 6)),
    .key .BTN_TOUCH ((byteAt data 0 &&& 0x01) != 0),
    .key .BTN_STYLUS ((byteAt data 0 &&& 0x02) != 0),
    .key .BTN_STYLUS2 ((byteAt data 0 &&& 0x04) != 0) ]

/-- `veikk_buttons_event` (hid-veikk.c lines 201-243), acting on the 7-byte
payload: byte 0 is the sub-type (1 = button group, otherwise wheel group),
byte 1 the pressed flag, bytes 2-3 the little-endian bitmask.  Pressing ORs
the mask into the selected persisted bitmap, releasing AND-NOTs it; the store
into `buttons_state` truncates to 16 bits and the store into `wheel_state`
truncates to 8 bits, exactly as the C assignments to `u16`/`u8` fields do
(the C `~` acts on `int`, so it complements every bit of the 16-bit mask).
The emitted events read the post-update local copies. -/
def veikk_buttons_event (data : List Nat) (dev : veikk_device) :
    veikk_device × List input_event :=
  let event_buttons := get_unaligned_le16 (byteAt data 2) (byteAt data 3)
  let dev1 :=
    if byteAt data 0 = 1 then
      { dev with buttons_state :=
          if byteAt data 1 ≠ 0 then
            (dev.buttons_state ||| event_buttons) % 2 ^ 16
          else
            (dev.buttons_state &&& ((2 ^ 16 - 1) ^^^ event_buttons)) % 2 ^ 16 }
    else
      { dev with wheel_state :=
          if byteAt data 1 ≠ 0 then
            (dev.wheel_state ||| event_buttons) % 2 ^ 8
          else
            (dev.wheel_state &&& ((2 ^ 16 - 1) ^^^ event_buttons)) % 2 ^ 8 }
  (dev1,
   [ .key .BTN_0 ((dev1.buttons_state &&& 0x001) != 0),
     .key .BTN_1 ((dev1.buttons_state &&& 0x002) != 0),
     .key .BTN_2 ((dev1.buttons_state &&& 0x004) != 0),
     .key .BTN_3 ((dev1.buttons_state &&& 0x008) != 0),
     .key .BTN_4 ((dev1.buttons_state &&& 0x010) != 0),
     .key .BTN_5 ((dev1.buttons_state &&& 0x020) != 0),
     .key .BTN_6 ((dev1.buttons_state &&& 0x040) != 0),
     .key .BTN_7 ((dev1.buttons_state &&& 0x080) != 0),
     .key .BTN_8 ((dev1.buttons_state &&& 0x100) != 0),
     .key .BTN_9 ((dev1.buttons_state &&& 0x200) != 0),
     .key .BTN_0x118 ((dev1.buttons_state &&& 0x400) != 0),
     .key .BTN_0x119 ((dev1.buttons_state &&& 0x800) != 0),
     .key .BTN_WHEEL ((dev1.buttons_state &&& 0x1000) != 0),
     .key .BTN_GEAR_DOWN ((dev1.wheel_state &&& 0x1) != 0),
     .key .BTN_GEAR_UP ((dev1.wheel_state &&& 0x2) != 0) ])

/-- `veikk_pad_event` (hid-veikk.c lines 245-263), acting on the 7-byte
payload: byte 0 is the pressed flag, byte 1 the one-byte bitmask.  The store
into the `u8` field `pad_state` truncates to 8 bits. -/
def veikk_pad_event (data : List Nat) (dev : veikk_device) :
    veikk_device × List input_event :=
  let state :=
    if byteAt data 0 ≠ 0 then
      (dev.pad_state ||| byteAt data 1) % 2 ^ 8
    else
      (dev.pad_state &&& ((2 ^ 8 - 1) ^^^ byteAt data 1)) % 2 ^ 8
  ({ dev with pad_state := state },
   [ .key .BTN_NORTH ((state &&& 0x01) != 0),
     .key .BTN_SOUTH ((state &&& 0x02) != 0),
     .key .BTN_WEST ((state &&& 0x04) != 0),
     .key .BTN_EAST ((state &&& 0x08) != 0),
     .key .BTN_TOOL_DOUBLETAP ((state &&& 0x10) != 0) ])

/-- Observable outcome of one call to `veikk_raw_event`: the device context
after the call, the events reported, how many times `input_sync` ran, and the
C return value. -/
structure raw_event_result where
  dev : veikk_device
  events : List input_event
  sync_count : Nat
  retval : Int
deriving Repr, DecidableEq

/-- `veikk_raw_event` (hid-veikk.c lines 265-304).  `data` is the full raw
report: byte 0 the report id (always 9 on the proprietary interface), byte 1
the type, bytes 2-8 the payload.  Wrong size or wrong id yields `-EINVAL`
before any interpretation; a recognized type dispatches to its handler and
then runs `input_sync` once, returning 1; an unrecognized type is logged and
returns 0 with no event, no sync and no state change. -/
def veikk_raw_event (dev : veikk_device) (data : List Nat) : raw_event_result :=
  if byteAt data 0 ≠ 9 ∨ data.length ≠ 9 then
    { dev := dev, events := [], sync_count := 0, retval := -EINVAL }
  else if byteAt data 1 = VEIKK_PEN_REPORT then
    { dev := dev, events := veikk_pen_event (data.drop 2),
      sync_count := 1, retval := 1 }
  else if byteAt data 1 = VEIKK_BUTTON_REPORT then
    let r := veikk_buttons_event (data.drop 2) dev
    { dev := r.1, events := r.2, sync_count := 1, retval := 1 }
  else if byteAt data 1 = VEIKK_PAD_REPORT then
    let r := veikk_pad_event (data.drop 2) dev
    { dev := r.1, events := r.2, sync_count := 1, retval := 1 }
  else
    { dev := dev, events := [], sync_count := 0, retval := 0 }

/-- `pen_output_report` (hid-veikk.c lines 125-126). -/
def pen_output_report : List Nat :=
  [0x09, 0x01, 0x04, 0x00, 0x00, 0x00, 0x00, 0x00, 0x00]

/-- `buttons_output_report` (hid-veikk.c lines 127-128). -/
def buttons_output_report : List Nat :=
  [0x09, 0x02, 0x02, 0x00, 0x00, 0x00, 0x00, 0x00, 0x00]

/-- `pad_output_report` (hid-veikk.c lines 129-130). -/
def pad_output_report : List Nat :=
  [0x09, 0x03, 0x02, 0x00, 0x00, 0x00, 0x00, 0x00, 0x00]

/-- The three device subsystems the Activation Sequencer can enable. -/
inductive subsystem where
  | pen | buttons | pad
deriving Repr, DecidableEq

/-- One scheduled `delayed_work` item: which subsystem's enable command it
will send, and the delay it was scheduled with. -/
structure scheduled_work where
  kind : subsystem
  delay : Nat
deriving Repr, DecidableEq

/-- The work-scheduling tail of `veikk_allocate_setup_register_inputs`
(hid-veikk.c lines 461-472): the pen setup work is always scheduled with
delay 100, the buttons setup work with delay 200 iff the model has buttons,
and the pad setup work with delay 300 iff the model has a pad, in that
order. -/
def veikk_schedule_setup_works (model : veikk_model) : List scheduled_work :=
  [⟨.pen, 100⟩]
    ++ (if model.has_buttons then [⟨.buttons, 200⟩] else [])
    ++ (if model.has_pad then [⟨.pad, 300⟩] else [])

/-- Specification-side description of the digital event set emitted after a
buttons-class frame, phrased as bit reads of the persisted bitmaps: thirteen
button events from bits 0-12 of the 16-bit button bitmap `S` (the thirteenth
being the wheel-center key, driven by bit 12), then two wheel-direction
events from bits 0 and 1 of the 8-bit wheel bitmap `W`. -/
def spec_buttons_events (S W : Nat) : List input_event :=
  [ .key .BTN_0 (S.testBit 0),
    .key .BTN_1 (S.testBit 1),
    .key .BTN_2 (S.testBit 2),
    .key .BTN_3 (S.testBit 3),
    .key .BTN_4 (S.testBit 4),
    .key .BTN_5 (S.testBit 5),
    .key .BTN_6 (S.testBit 6),
    .key .BTN_7 (S.testBit 7),
    .key .BTN_8 (S.testBit 8),
    .key .BTN_9 (S.testBit 9),
    .key .BTN_0x118 (S.testBit 10),
    .key .BTN_0x119 (S.testBit 11),
    .key .BTN_WHEEL (S.testBit 12),
    .key .BTN_GEAR_DOWN (W.testBit 0),
    .key .BTN_GEAR_UP (W.testBit 1) ]

/-- Specification-side description of the digital event set emitted after a
pad-class frame: four directional swipe events and one double-tap event from
bits 0-4 of the persisted pad bitmap `P`. -/
def spec_pad_events (P : Nat) : List input_event :=
  [ .key .BTN_NORTH (P.testBit 0),
    .key .BTN_SOUTH (P.testBit 1),
    .key .BTN_WEST (P.testBit 2),
    .key .BTN_EAST (P.testBit 3),
    .key .BTN_TOOL_DOUBLETAP (P.testBit 4) ]

/-- Boolean equality on naturals is the decision of propositional equality. -/
theorem nat_beq_eq_decide (a b : Nat) : (a == b) = decide (a = b) := by
  by_cases h : a = b <;> simp [h]

/-- Every byte read is below 256. -/
theorem byteAt_lt (data : List Nat) (i : Nat) : byteAt data i < 256 :=
  Nat.mod_lt _ (by omega)

/-- Reducing a byte read modulo 256 again is the identity. -/
theorem byteAt_mod (data : List Nat) (i : Nat) : byteAt data i % 256 = byteAt data i :=
  Nat.mod_eq_of_lt (byteAt_lt data i)

/-- Reading byte `i` of a suffix is reading byte `k + i` of the buffer. -/
theorem byteAt_drop (data : List Nat) (k i : Nat) :
    byteAt (data.drop k) i = byteAt data (k + i) := by
  simp [byteAt, List.getD_eq_getElem?_getD, List.getElem?_drop]

/-- The C truthiness test of a single-bit mask is exactly `Nat.testBit`. -/
theorem bne_and_two_pow (s i : Nat) : ((s &&& 2 ^ i) != 0) = s.testBit i := by
  have hp : (2 : Nat) ^ i ≠ 0 := Nat.pos_iff_ne_zero.mp (Nat.pos_pow_of_pos i (by omega))
  rcases h : s.testBit i with _ | _ <;> simp [Nat.and_two_pow, h, hp]

/-- Mask 0x001 tests bit 0. -/
theorem bne_and_b0 (s : Nat) : ((s &&& 0x001) != 0) = s.testBit 0 := bne_and_two_pow s 0

/-- Mask 0x002 tests bit 1. -/
theorem bne_and_b1 (s : Nat) : ((s &&& 0x002) != 0) = s.testBit 1 := bne_and_two_pow s 1

/-- Mask 0x004 tests bit 2. -/
theorem bne_and_b2 (s : Nat) : ((s &&& 0x004) != 0) = s.testBit 2 := bne_and_two_pow s 2

/-- Mask 0x008 tests bit 3. -/
theorem bne_and_b3 (s : Nat) : ((s &&& 0x008) != 0) = s.testBit 3 := bne_and_two_pow s 3

/-- Mask 0x010 tests bit 4. -/
theorem bne_and_b4 (s : Nat) : ((s &&& 0x010) != 0) = s.testBit 4 := bne_and_two_pow s 4

/-- Mask 0x020 tests bit 5. -/
theorem bne_and_b5 (s : Nat) : ((s &&& 0x020) != 0) = s.testBit 5 := bne_and_two_pow s 5

/-- Mask 0x040 tests bit 6. -/
theorem bne_and_b6 (s : Nat) : ((s &&& 0x040) != 0) = s.testBit 6 := bne_and_two_pow s 6

/-- Mask 0x080 tests bit 7. -/
theorem bne_and_b7 (s : Nat) : ((s &&& 0x080) != 0) = s.testBit 7 := bne_and_two_pow s 7

/-- Mask 0x100 tests bit 8. -/
theorem bne_and_b8 (s : Nat) : ((s &&& 0x100) != 0) = s.testBit 8 := bne_and_two_pow s 8

/-- Mask 0x200 tests bit 9. -/
theorem bne_and_b9 (s : Nat) : ((s &&& 0x200) != 0) = s.testBit 9 := bne_and_two_pow s 9

/-- Mask 0x400 tests bit 10. -/
theorem bne_and_b10 (s : Nat) : ((s &&& 0x400) != 0) = s.testBit 10 := bne_and_two_pow s 10

/-- Mask 0x800 tests bit 11. -/
theorem bne_and_b11 (s : Nat) : ((s &&& 0x800) != 0) = s.testBit 11 := bne_and_two_pow s 11

/-- Mask 0x1000 tests bit 12. -/
theorem bne_and_b12 (s : Nat) : ((s &&& 0x1000) != 0) = s.testBit 12 := bne_and_two_pow s 12

/-- Bit view of an OR-merge followed by a `w`-bit truncating store. -/
theorem press_testBit (S m w i : Nat) :
    ((S ||| m) % 2 ^ w).testBit i = ((S.testBit i || m.testBit i) && decide (i < w)) := by
  rw [Nat.testBit_mod_two_pow, Nat.testBit_or, Bool.and_comm]

/-- Bit view of an AND-NOT merge (complement taken on `v` bits, `w ≤ v`)
followed by a `w`-bit truncating store. -/
theorem release_testBit (S m v w i : Nat) (hw : w ≤ v) :
    ((S &&& ((2 ^ v - 1) ^^^ m)) % 2 ^ w).testBit i =
      ((S.testBit i && !m.testBit i) && decide (i < w)) := by
  rw [Nat.testBit_mod_two_pow, Nat.testBit_and, Nat.testBit_xor,
    Nat.testBit_two_pow_sub_one]
  by_cases h : i < w
  · have hv : i < v := lt_of_lt_of_le h hw
    simp [h, hv]
  · simp [h]

/-- Device state after a button-group press payload. -/
theorem veikk_buttons_event_fst_press (dev : veikk_device) (data : List Nat)
    (h0 : byteAt data 0 = 1) (h1 : byteAt data 1 ≠ 0) :
    (veikk_buttons_event data dev).1 =
      { dev with buttons_state :=
          (dev.buttons_state |||
            get_unaligned_le16 (byteAt data 2) (byteAt data 3)) % 2 ^ 16 } := by
  simp only [veikk_buttons_event]
  rw [if_pos h0, if_pos h1]

/-- Device state after a button-group release payload. -/
theorem veikk_buttons_event_fst_release (dev : veikk_device) (data : List Nat)
    (h0 : byteAt data 0 = 1) (h1 : byteAt data 1 = 0) :
    (veikk_buttons_event data dev).1 =
      { dev with buttons_state :=
          (dev.buttons_state &&&
            ((2 ^ 16 - 1) ^^^
              get_unaligned_le16 (byteAt data 2) (byteAt data 3))) % 2 ^ 16 } := by
  simp only [veikk_buttons_event]
  rw [if_pos h0, if_neg (not_not_intro h1)]

/-- Device state after a wheel-group press payload. -/
theorem veikk_buttons_event_fst_wheel_press (dev : veikk_device) (data : List Nat)
    (h0 : byteAt data 0 ≠ 1) (h1 : byteAt data 1 ≠ 0) :
    (veikk_buttons_event data dev).1 =
      { dev with wheel_state :=
          (dev.wheel_state |||
            get_unaligned_le16 (byteAt data 2) (byteAt data 3)) % 2 ^ 8 } := by
  simp only [veikk_buttons_event]
  rw [if_neg h0, if_pos h1]

/-- Device state after a wheel-group release payload. -/
theorem veikk_buttons_event_fst_wheel_release (dev : veikk_device) (data : List Nat)
    (h0 : byteAt data 0 ≠ 1) (h1 : byteAt data 1 = 0) :
    (veikk_buttons_event data dev).1 =
      { dev with wheel_state :=
          (dev.wheel_state &&&
            ((2 ^ 16 - 1) ^^^
              get_unaligned_le16 (byteAt data 2) (byteAt data 3))) % 2 ^ 8 } := by
  simp only [veikk_buttons_event]
  rw [if_neg h0, if_neg (not_not_intro h1)]

/-- The buttons-class emission refines the specification event set read off
the post-update persisted button and wheel bitmaps. -/
theorem veikk_buttons_event_snd_spec (dev : veikk_device) (data : List Nat) :
    (veikk_buttons_event data dev).2 =
      spec_buttons_events (veikk_buttons_event data dev).1.buttons_state
        (veikk_buttons_event data dev).1.wheel_state := by
  simp only [veikk_buttons_event, spec_buttons_events, bne_and_b0, bne_and_b1,
    bne_and_b2, bne_and_b3, bne_and_b4, bne_and_b5, bne_and_b6, bne_and_b7,
    bne_and_b8, bne_and_b9, bne_and_b10, bne_and_b11, bne_and_b12]

/-- Device state after a pad press payload. -/
theorem veikk_pad_event_fst_press (dev : veikk_device) (data : List Nat)
    (h0 : byteAt data 0 ≠ 0) :
    (veikk_pad_event data dev).1 =
      { dev with pad_state := (dev.pad_state ||| byteAt data 1) % 2 ^ 8 } := by
  simp only [veikk_pad_event]
  rw [if_pos h0]

/-- Device state after a pad release payload. -/
theorem veikk_pad_event_fst_release (dev : veikk_device) (data : List Nat)
    (h0 : byteAt data 0 = 0) :
    (veikk_pad_event data dev).1 =
      { dev with pad_state :=
          (dev.pad_state &&& ((2 ^ 8 - 1) ^^^ byteAt data 1)) % 2 ^ 8 } := by
  simp only [veikk_pad_event]
  rw [if_neg (not_not_intro h0)]

/-- The pad emission refines the specification event set read off the
post-update persisted pad bitmap. -/
theorem veikk_pad_event_snd_spec (dev : veikk_device) (data : List Nat) :
    (veikk_pad_event data dev).2 =
      spec_pad_events (veikk_pad_event data dev).1.pad_state := by
  simp only [veikk_pad_event, spec_pad_events, bne_and_b0, bne_and_b1,
    bne_and_b2, bne_and_b3, bne_and_b4]

/-- C2: for every buttons-class frame the two merge domains are independent:
a sub-type-1 payload updates only the button bitmap and leaves the persisted
wheel state (and pad state, and model) unchanged, while any other sub-type
updates only the wheel bitmap and leaves the persisted button state (and pad
state, and model) unchanged. -/
theorem c2_domain_independence (dev : veikk_device) (data : List Nat) :
    (byteAt data 0 = 1 →
      (veikk_buttons_event data dev).1.wheel_state = dev.wheel_state ∧
      (veikk_buttons_event data dev).1.pad_state = dev.pad_state ∧
      (veikk_buttons_event data dev).1.model = dev.model) ∧
    (byteAt data 0 ≠ 1 →
      (veikk_buttons_event data dev).1.buttons_state = dev.buttons_state ∧
      (veikk_buttons_event data dev).1.pad_state = dev.pad_state ∧
      (veikk_buttons_event data dev).1.model = dev.model) := by
  constructor
  · intro h
    simp [veikk_buttons_event, h]
  · intro h
    simp [veikk_buttons_event, h]

/-- Witness for C2 at a concrete button-group payload and a concrete
wheel-group payload on a fresh A30 context. -/
theorem c2_witness :
    (byteAt [1, 1, 2, 0, 0, 0, 0] 0 = 1 ∧
      (veikk_buttons_event [1, 1, 2, 0, 0, 0, 0]
        (veikk_probe_device veikk_model_0x0002)).1.wheel_state =
        (veikk_probe_device veikk_model_0x0002).wheel_state) ∧
    (byteAt [3, 1, 2, 0, 0, 0, 0] 0 ≠ 1 ∧
      (veikk_buttons_event [3, 1, 2, 0, 0, 0, 0]
        (veikk_probe_device veikk_model_0x0002)).1.buttons_state =
        (veikk_probe_device veikk_model_0x0002).buttons_state) :=
  ⟨⟨by decide,
    ((c2_domain_independence (veikk_probe_device veikk_model_0x0002)
      [1, 1, 2, 0, 0, 0, 0]).1 (by decide)).1⟩,
   ⟨by decide,
    ((c2_domain_independence (veikk_probe_device veikk_model_0x0002)
      [3, 1, 2, 0, 0, 0, 0]).2 (by decide)).1⟩⟩

/-- C4: a raw report whose length is not 9 or whose leading id byte is not 9
is rejected with `-EINVAL`, emits no event, never reaches `input_sync`, and
leaves every field of the device context unchanged. -/
theorem c4_malformed_frame (dev : veikk_device) (data : List Nat)
    (h : data.length ≠ 9 ∨ byteAt data 0 ≠ 9) :
    veikk_raw_event dev data =
      { dev := dev, events := [], sync_count := 0, retval := -EINVAL } := by
  unfold veikk_raw_event
  rw [if_pos (Or.symm h)]

/-- Witness for C4 at the empty byte sequence. -/
theorem c4_witness :
    (([] : List Nat).length ≠ 9 ∨ byteAt [] 0 ≠ 9) ∧
    veikk_raw_event (veikk_probe_device veikk_model_0x0001) [] =
      { dev := veikk_probe_device veikk_model_0x0001, events := [],
        sync_count := 0, retval := -EINVAL } :=
  ⟨Or.inl (by decide),
   c4_malformed_frame (veikk_probe_device veikk_model_0x0001) []
     (Or.inl (by decide))⟩

/-- C6: a well-formed 9-byte frame whose type byte is outside
{0x41, 0x42, 0x43} is not an error (return 0), produces no event, mutates no
device-context state, and does not reach `input_sync`; moreover `input_sync`
runs exactly once precisely on accepted frames (well-formed with a recognized
type) and never on rejected or unrecognized ones. -/
theorem c6_unrecognized_and_sync (dev : veikk_device) (data : List Nat) :
    (data.length = 9 → byteAt data 0 = 9 →
      byteAt data 1 ≠ VEIKK_PEN_REPORT → byteAt data 1 ≠ VEIKK_BUTTON_REPORT →
      byteAt data 1 ≠ VEIKK_PAD_REPORT →
      veikk_raw_event dev data =
        { dev := dev, events := [], sync_count := 0, retval := 0 }) ∧
    ((veikk_raw_event dev data).sync_count = 1 ↔
      (data.length = 9 ∧ byteAt data 0 = 9 ∧
        (byteAt data 1 = VEIKK_PEN_REPORT ∨ byteAt data 1 = VEIKK_BUTTON_REPORT ∨
         byteAt data 1 = VEIKK_PAD_REPORT))) := by
  constructor
  · intro h1 h2 h3 h4 h5
    simp [veikk_raw_event, h1, h2, h3, h4, h5]
  · by_cases hL : data.length = 9
    · by_cases hI : byteAt data 0 = 9
      · by_cases hP : byteAt data 1 = VEIKK_PEN_REPORT
        · simp [veikk_raw_event, hL, hI, hP]
        · by_cases hB : byteAt data 1 = VEIKK_BUTTON_REPORT
          · simp [veikk_raw_event, hL, hI, hP, hB, VEIKK_PEN_REPORT,
              VEIKK_BUTTON_REPORT]
          · by_cases hD : byteAt data 1 = VEIKK_PAD_REPORT
            · simp [veikk_raw_event, hL, hI, hP, hB, hD, VEIKK_PEN_REPORT,
                VEIKK_BUTTON_REPORT, VEIKK_PAD_REPORT]
            · simp [veikk_raw_event, hL, hI, hP, hB, hD]
      · simp [veikk_raw_event, hL, hI]
    · simp [veikk_raw_event, hL]

/-- Witness for C6 at a well-formed frame with unrecognized type 0x44 and at
an accepted pen frame, on a fresh S640 context. -/
theorem c6_witness :
    (([9, 0x44, 0, 0, 0, 0, 0, 0, 0] : List Nat).length = 9 ∧
      byteAt [9, 0x44, 0, 0, 0, 0, 0, 0, 0] 0 = 9 ∧
      byteAt [9, 0x44, 0, 0, 0, 0, 0, 0, 0] 1 ≠ VEIKK_PEN_REPORT ∧
      veikk_raw_event (veikk_probe_device veikk_model_0x0001)
        [9, 0x44, 0, 0, 0, 0, 0, 0, 0] =
        { dev := veikk_probe_device veikk_model_0x0001, events := [],
          sync_count := 0, retval := 0 }) ∧
    (veikk_raw_event (veikk_probe_device veikk_model_0x0001)
        [9, 0x41, 0, 0, 0, 0, 0, 0, 0]).sync_count = 1 :=
  ⟨⟨by decide, by decide, by decide,
    (c6_unrecognized_and_sync (veikk_probe_device veikk_model_0x0001)
      [9, 0x44, 0, 0, 0, 0, 0, 0, 0]).1 (by decide) (by decide) (by decide)
      (by decide) (by decide)⟩,
   (c6_unrecognized_and_sync (veikk_probe_device veikk_model_0x0001)
      [9, 0x41, 0, 0, 0, 0, 0, 0, 0]).2.mpr
      ⟨by decide, by decide, Or.inl (by decide)⟩⟩

/-- C5: for every accepted pen-class frame the decoded x, y and pressure
values are the unsigned little-endian readings of the three 2-byte payload
fields with no clamping, the three stylus digital events are bits 0, 1 and 2
of the flags byte, the persisted device state is untouched, and the produced
events do not depend on the device context, so the same frame always decodes
identically. -/
theorem c5_pen_decode (dev dev2 : veikk_device) (data : List Nat)
    (hlen : data.length = 9) (hid : byteAt data 0 = 9)
    (hty : byteAt data 1 = VEIKK_PEN_REPORT) :
    (veikk_raw_event dev data).dev = dev ∧
    (veikk_raw_event dev data).events =
      [ .abs .ABS_X (byteAt data 3 + 256 * byteAt data 4),
        .abs .ABS_Y (byteAt data 5 + 256 * byteAt data 6),
        .abs .ABS_PRESSURE (byteAt data 7 + 256 * byteAt data 8),
        .key .BTN_TOUCH ((byteAt data 2).testBit 0),
        .key .BTN_STYLUS ((byteAt data 2).testBit 1),
        .key .BTN_STYLUS2 ((byteAt data 2).testBit 2) ] ∧
    (veikk_raw_event dev data).events = (veikk_raw_event dev2 data).events := by
  refine ⟨?_, ?_, ?_⟩
  · simp [veikk_raw_event, hlen, hid, hty]
  · simp [veikk_raw_event, hlen, hid, hty, veikk_pen_event, byteAt_drop,
      get_unaligned_le16, byteAt_mod, bne_and_b0, bne_and_b1, bne_and_b2,
      nat_beq_eq_decide]
  · simp [veikk_raw_event, hlen, hid, hty]

/-- Witness for C5 at a concrete pen frame (x = 0x0102, y = 0x0304,
pressure = 0x0506, flags = 0x05) on two different contexts. -/
theorem c5_witness :
    ([9, 0x41, 0x05, 0x02, 0x01, 0x04, 0x03, 0x06, 0x05] : List Nat).length = 9 ∧
    (veikk_raw_event (veikk_probe_device veikk_model_0x0001)
        [9, 0x41, 0x05, 0x02, 0x01, 0x04, 0x03, 0x06, 0x05]).events =
      [ .abs .ABS_X 0x0102, .abs .ABS_Y 0x0304, .abs .ABS_PRESSURE 0x0506,
        .key .BTN_TOUCH true, .key .BTN_STYLUS false, .key .BTN_STYLUS2 true ] := by
  constructor
  · decide
  · rw [(c5_pen_decode (veikk_probe_device veikk_model_0x0001)
      (veikk_probe_device veikk_model_0x0002)
      [9, 0x41, 0x05, 0x02, 0x01, 0x04, 0x03, 0x06, 0x05]
      (by decide) (by decide) (by decide)).2.1]
    decide

/-- Counterexample to C1 as stated: a wheel-group buttons-class frame
(sub-type 0, pressed) carrying the 16-bit mask m = 0x0100 applied to a fresh
context leaves the selected persisted bitmask (the wheel state, initially 0)
at 0, whereas the claim demands it become S | m = 256: the store into the
8-bit wheel state truncates the mask. -/
theorem c1_counterexample :
    byteAt [9, 0x42, 0, 1, 0x00, 0x01, 0, 0, 0] 1 = VEIKK_BUTTON_REPORT ∧
    byteAt [9, 0x42, 0, 1, 0x00, 0x01, 0, 0, 0] 2 ≠ 1 ∧
    (veikk_probe_device veikk_model_0x0002).wheel_state = 0 ∧
    get_unaligned_le16 0x00 0x01 = 256 ∧
    (veikk_raw_event (veikk_probe_device veikk_model_0x0002)
        [9, 0x42, 0, 1, 0x00, 0x01, 0, 0, 0]).dev.wheel_state = 0 ∧
    (0 : Nat) ||| 256 ≠ 0 := by decide

/-- C1 (amended): for every buttons-class payload the selected persisted
bitmask S becomes S | m on press and S & ~m on release, truncated to the
selected domain's storage width (16 bits for the button domain, 8 bits for
the wheel domain) — stated per bit — and likewise for pad-class payloads on
the 8-bit pad bitmap; the digital events emitted for the frame are computed
from the post-update persisted state, not from the incoming bitmask. -/
theorem c1_merge_semantics (dev : veikk_device) (data : List Nat) :
    (byteAt data 0 = 1 → byteAt data 1 ≠ 0 → ∀ i : Nat,
      (veikk_buttons_event data dev).1.buttons_state.testBit i =
        ((dev.buttons_state.testBit i ||
          (get_unaligned_le16 (byteAt data 2) (byteAt data 3)).testBit i) &&
         decide (i < 16))) ∧
    (byteAt data 0 = 1 → byteAt data 1 = 0 → ∀ i : Nat,
      (veikk_buttons_event data dev).1.buttons_state.testBit i =
        ((dev.buttons_state.testBit i &&
          !(get_unaligned_le16 (byteAt data 2) (byteAt data 3)).testBit i) &&
         decide (i < 16))) ∧
    (byteAt data 0 ≠ 1 → byteAt data 1 ≠ 0 → ∀ i : Nat,
      (veikk_buttons_event data dev).1.wheel_state.testBit i =
        ((dev.wheel_state.testBit i ||
          (get_unaligned_le16 (byteAt data 2) (byteAt data 3)).testBit i) &&
         decide (i < 8))) ∧
    (byteAt data 0 ≠ 1 → byteAt data 1 = 0 → ∀ i : Nat,
      (veikk_buttons_event data dev).1.wheel_state.testBit i =
        ((dev.wheel_state.testBit i &&
          !(get_unaligned_le16 (byteAt data 2) (byteAt data 3)).testBit i) &&
         decide (i < 8))) ∧
    (veikk_buttons_event data dev).2 =
      spec_buttons_events (veikk_buttons_event data dev).1.buttons_state
        (veikk_buttons_event data dev).1.wheel_state ∧
    (byteAt data 0 ≠ 0 → ∀ i : Nat,
      (veikk_pad_event data dev).1.pad_state.testBit i =
        ((dev.pad_state.testBit i || (byteAt data 1).testBit i) &&
         decide (i < 8))) ∧
    (byteAt data 0 = 0 → ∀ i : Nat,
      (veikk_pad_event data dev).1.pad_state.testBit i =
        ((dev.pad_state.testBit i && !(byteAt data 1).testBit i) &&
         decide (i < 8))) ∧
    (veikk_pad_event data dev).2 =
      spec_pad_events (veikk_pad_event data dev).1.pad_state := by
  refine ⟨?_, ?_, ?_, ?_, veikk_buttons_event_snd_spec dev data, ?_, ?_,
    veikk_pad_event_snd_spec dev data⟩
  · intro h0 h1 i
    rw [veikk_buttons_event_fst_press dev data h0 h1]
    exact press_testBit _ _ 16 i
  · intro h0 h1 i
    rw [veikk_buttons_event_fst_release dev data h0 h1]
    exact release_testBit _ _ 16 16 i (le_refl 16)
  · intro h0 h1 i
    rw [veikk_buttons_event_fst_wheel_press dev data h0 h1]
    exact press_testBit _ _ 8 i
  · intro h0 h1 i
    rw [veikk_buttons_event_fst_wheel_release dev data h0 h1]
    exact release_testBit _ _ 16 8 i (by omega)
  · intro h0 i
    rw [veikk_pad_event_fst_press dev data h0]
    exact press_testBit _ _ 8 i
  · intro h0 i
    rw [veikk_pad_event_fst_release dev data h0]
    exact release_testBit _ _ 8 8 i (le_refl 8)

/-- Witness for C1 (amended) at the concrete scenario of the claim: a fresh
context receiving a button-group pressed payload with mask 0x0001 ends with
persisted button state 0x0001, button 0 reported pressed, and every other
emitted digital computed from the post-update state (all released). -/
theorem c1_witness :
    byteAt [1, 1, 1, 0, 0, 0, 0] 0 = 1 ∧ byteAt [1, 1, 1, 0, 0, 0, 0] 1 ≠ 0 ∧
    (veikk_buttons_event [1, 1, 1, 0, 0, 0, 0]
      (veikk_probe_device veikk_model_0x0002)).1.buttons_state = 1 ∧
    (veikk_buttons_event [1, 1, 1, 0, 0, 0, 0]
      (veikk_probe_device veikk_model_0x0002)).1.buttons_state.testBit 0 = true ∧
    (veikk_buttons_event [1, 1, 1, 0, 0, 0, 0]
      (veikk_probe_device veikk_model_0x0002)).2 =
      [ .key .BTN_0 true, .key .BTN_1 false, .key .BTN_2 false,
        .key .BTN_3 false, .key .BTN_4 false, .key .BTN_5 false,
        .key .BTN_6 false, .key .BTN_7 false, .key .BTN_8 false,
        .key .BTN_9 false, .key .BTN_0x118 false, .key .BTN_0x119 false,
        .key .BTN_WHEEL false, .key .BTN_GEAR_DOWN false,
        .key .BTN_GEAR_UP false ] := by
  have h := c1_merge_semantics (veikk_probe_device veikk_model_0x0002)
    [1, 1, 1, 0, 0, 0, 0]
  refine ⟨by decide, by decide, by decide, ?_, ?_⟩
  · rw [h.1 (by decide) (by decide) 0]
    decide
  · rw [h.2.2.2.2.1]
    decide

/-- Counterexample to C3 as stated: the wheel-center event is not computed
from the persisted wheel domain.  Two contexts with identical persisted wheel
state (both 0) — a fresh context, and one that received a button-group press
with mask 0x1000 — receive the same buttons-class frame, yet one run emits
wheel-center pressed and the other emits wheel-center released: the
wheel-center event is driven by bit 12 of the persisted button domain. -/
theorem c3_counterexample :
    ((veikk_raw_event (veikk_probe_device veikk_model_0x0002)
        [9, 0x42, 1, 1, 0x00, 0x10, 0, 0, 0]).dev.wheel_state =
      (veikk_probe_device veikk_model_0x0002).wheel_state) ∧
    input_event.key .BTN_WHEEL true ∈
      (veikk_raw_event
        (veikk_raw_event (veikk_probe_device veikk_model_0x0002)
          [9, 0x42, 1, 1, 0x00, 0x10, 0, 0, 0]).dev
        [9, 0x42, 0, 0, 0, 0, 0, 0, 0]).events ∧
    input_event.key .BTN_WHEEL false ∈
      (veikk_raw_event (veikk_probe_device veikk_model_0x0002)
        [9, 0x42, 0, 0, 0, 0, 0, 0, 0]).events ∧
    input_event.key .BTN_WHEEL true ∉
      (veikk_raw_event (veikk_probe_device veikk_model_0x0002)
        [9, 0x42, 0, 0, 0, 0, 0, 0, 0]).events := by decide

/-- C3 (amended): after every accepted buttons-class frame, regardless of
which domain the frame updated, the merger emits exactly 15 events: twelve
numbered button events and the wheel-center event, all thirteen computed
from the persisted button domain (wheel-center from bit 12), plus two
wheel-direction events computed from bits 0 and 1 of the persisted wheel
domain. -/
theorem c3_full_emission (dev : veikk_device) (data : List Nat)
    (hlen : data.length = 9) (hid : byteAt data 0 = 9)
    (hty : byteAt data 1 = VEIKK_BUTTON_REPORT) :
    (veikk_raw_event dev data).events =
      spec_buttons_events (veikk_raw_event dev data).dev.buttons_state
        (veikk_raw_event dev data).dev.wheel_state ∧
    (veikk_raw_event dev data).events.length = 15 := by
  have hred : veikk_raw_event dev data =
      { dev := (veikk_buttons_event (data.drop 2) dev).1,
        events := (veikk_buttons_event (data.drop 2) dev).2,
        sync_count := 1, retval := 1 } := by
    simp [veikk_raw_event, hlen, hid, hty, VEIKK_PEN_REPORT,
      VEIKK_BUTTON_REPORT]
  rw [hred]
  refine ⟨veikk_buttons_event_snd_spec dev (data.drop 2), ?_⟩
  rw [veikk_buttons_event_snd_spec dev (data.drop 2)]
  simp [spec_buttons_events]

/-- Witness for C3 (amended) at a concrete button-group press frame on a
fresh A30 context. -/
theorem c3_witness :
    ([9, 0x42, 1, 1, 1, 0, 0, 0, 0] : List Nat).length = 9 ∧
    byteAt [9, 0x42, 1, 1, 1, 0, 0, 0, 0] 1 = VEIKK_BUTTON_REPORT ∧
    (veikk_raw_event (veikk_probe_device veikk_model_0x0002)
        [9, 0x42, 1, 1, 1, 0, 0, 0, 0]).events = spec_buttons_events 1 0 ∧
    (veikk_raw_event (veikk_probe_device veikk_model_0x0002)
        [9, 0x42, 1, 1, 1, 0, 0, 0, 0]).events.length = 15 := by
  have h := c3_full_emission (veikk_probe_device veikk_model_0x0002)
    [9, 0x42, 1, 1, 1, 0, 0, 0, 0] (by decide) (by decide) (by decide)
  refine ⟨by decide, by decide, ?_, h.2⟩
  rw [h.1]
  decide

/-- A well-formed buttons-class frame carrying a button-group press of the
16-bit mask `m`, with the mask laid out little-endian. -/
def press_button_frame (m : Nat) : List Nat :=
  [9, 0x42, 1, 1, m % 256, m / 256 % 256, 0, 0, 0]

/-- A well-formed buttons-class frame carrying a button-group release of the
16-bit mask `m`, with the mask laid out little-endian. -/
def release_button_frame (m : Nat) : List Nat :=
  [9, 0x42, 1, 0, m % 256, m / 256 % 256, 0, 0, 0]

/-- Pushing a button-group press frame through the raw-event path ORs the
mask into the persisted button state. -/
theorem raw_press_buttons_state (dev : veikk_device) (m : Nat)
    (hm : m < 2 ^ 16) :
    (veikk_raw_event dev (press_button_frame m)).dev.buttons_state =
      (dev.buttons_state ||| m) % 2 ^ 16 := by
  have hdisp : (veikk_raw_event dev (press_button_frame m)).dev =
      (veikk_buttons_event [1, 1, m % 256, m / 256 % 256, 0, 0, 0] dev).1 := by
    simp [veikk_raw_event, press_button_frame, byteAt, VEIKK_PEN_REPORT,
      VEIKK_BUTTON_REPORT]
  have hle : get_unaligned_le16
      (byteAt [1, 1, m % 256, m / 256 % 256, 0, 0, 0] 2)
      (byteAt [1, 1, m % 256, m / 256 % 256, 0, 0, 0] 3) = m := by
    simp only [byteAt, get_unaligned_le16, List.getD_cons_succ,
      List.getD_cons_zero]
    omega
  rw [hdisp, veikk_buttons_event_fst_press _ _ (by simp [byteAt])
    (by simp [byteAt]), hle]

/-- Pushing a button-group release frame through the raw-event path AND-NOTs
the mask out of the persisted button state. -/
theorem raw_release_buttons_state (dev : veikk_device) (m : Nat)
    (hm : m < 2 ^ 16) :
    (veikk_raw_event dev (release_button_frame m)).dev.buttons_state =
      (dev.buttons_state &&& ((2 ^ 16 - 1) ^^^ m)) % 2 ^ 16 := by
  have hdisp : (veikk_raw_event dev (release_button_frame m)).dev =
      (veikk_buttons_event [1, 0, m % 256, m / 256 % 256, 0, 0, 0] dev).1 := by
    simp [veikk_raw_event, release_button_frame, byteAt, VEIKK_PEN_REPORT,
      VEIKK_BUTTON_REPORT]
  have hle : get_unaligned_le16
      (byteAt [1, 0, m % 256, m / 256 % 256, 0, 0, 0] 2)
      (byteAt [1, 0, m % 256, m / 256 % 256, 0, 0, 0] 3) = m := by
    simp only [byteAt, get_unaligned_le16, List.getD_cons_succ,
      List.getD_cons_zero]
    omega
  rw [hdisp, veikk_buttons_event_fst_release _ _ (by simp [byteAt])
    (by simp [byteAt]), hle]

/-- C7: modifier-hold — for any two distinct button-domain bit positions A
and B, pressing bit A, then pressing bit B, then releasing bit B leaves bit
A still set in the persisted button state. -/
theorem c7_modifier_hold (dev : veikk_device) (A B : Nat)
    (hA : A < 13) (hB : B < 13) (hAB : A ≠ B) :
    (veikk_raw_event
      (veikk_raw_event
        (veikk_raw_event dev (press_button_frame (2 ^ A))).dev
        (press_button_frame (2 ^ B))).dev
      (release_button_frame (2 ^ B))).dev.buttons_state.testBit A = true := by
  have hA16 : (2 : Nat) ^ A < 2 ^ 16 := Nat.pow_lt_pow_right (by omega) (by omega)
  have hB16 : (2 : Nat) ^ B < 2 ^ 16 := Nat.pow_lt_pow_right (by omega) (by omega)
  rw [raw_release_buttons_state _ _ hB16, release_testBit _ _ 16 16 A (le_refl 16),
    raw_press_buttons_state _ _ hB16, press_testBit _ _ 16 A,
    raw_press_buttons_state _ _ hA16, press_testBit _ _ 16 A]
  simp [Nat.testBit_two_pow_self, Nat.testBit_two_pow_of_ne (Ne.symm hAB),
    show A < 16 by omega]

/-- Witness for C7 at A = 0, B = 1 on a fresh A30 context. -/
theorem c7_witness :
    (0 : Nat) < 13 ∧ (1 : Nat) < 13 ∧ (0 : Nat) ≠ 1 ∧
    (veikk_raw_event
      (veikk_raw_event
        (veikk_raw_event (veikk_probe_device veikk_model_0x0002)
          (press_button_frame (2 ^ 0))).dev
        (press_button_frame (2 ^ 1))).dev
      (release_button_frame (2 ^ 1))).dev.buttons_state.testBit 0 = true :=
  ⟨by decide, by decide, by decide,
   c7_modifier_hold (veikk_probe_device veikk_model_0x0002) 0 1
     (by decide) (by decide) (by decide)⟩

/-- C8: at device attach the enable-pen work is always scheduled with delay
100, the enable-buttons work is scheduled with delay 200 iff the model has
buttons, the enable-pad work is scheduled with delay 300 iff the model has a
pad, the scheduled delays are strictly increasing in that order, and for a
model with has_buttons = false and has_pad = true exactly the two works pen
then pad are scheduled, pad strictly after pen. -/
theorem c8_activation_schedule (model : veikk_model) :
    (∀ w : scheduled_work, w ∈ veikk_schedule_setup_works model ↔
      (w = ⟨.pen, 100⟩ ∨ (model.has_buttons = true ∧ w = ⟨.buttons, 200⟩) ∨
        (model.has_pad = true ∧ w = ⟨.pad, 300⟩))) ∧
    List.Pairwise (fun a b => a.delay < b.delay)
      (veikk_schedule_setup_works model) ∧
    (model.has_buttons = false → model.has_pad = true →
      veikk_schedule_setup_works model = [⟨.pen, 100⟩, ⟨.pad, 300⟩] ∧
      (100 : Nat) < 300) := by
  rcases model with ⟨n, p, x, y, pr, hb, hp⟩
  cases hb <;> cases hp <;>
    simp [veikk_schedule_setup_works, List.pairwise_cons]

/-- Witness for C8 at a hypothetical model with has_buttons = false and
has_pad = true, and concretely for the registry model VK1560
(has_buttons = true, has_pad = false). -/
theorem c8_witness :
    ((veikk_model.mk "hypothetical" 0 1 1 1 false true).has_buttons = false ∧
      veikk_schedule_setup_works (veikk_model.mk "hypothetical" 0 1 1 1 false true) =
        [⟨.pen, 100⟩, ⟨.pad, 300⟩]) ∧
    (⟨.pen, 100⟩ ∈ veikk_schedule_setup_works veikk_model_0x1001 ∧
      (⟨.pad, 300⟩ ∈ veikk_schedule_setup_works veikk_model_0x1001 ↔
        veikk_model_0x1001.has_pad = true)) :=
  ⟨⟨rfl,
    ((c8_activation_schedule (veikk_model.mk "hypothetical" 0 1 1 1 false true)).2.2
      rfl rfl).1⟩,
   ⟨((c8_activation_schedule veikk_model_0x1001).1 ⟨.pen, 100⟩).mpr (Or.inl rfl),
    by
      have h := (c8_activation_schedule veikk_model_0x1001).1 ⟨.pad, 300⟩
      rw [h]
      constructor
      · intro hmem
        rcases hmem with h1 | h2 | h3
        · exact absurd h1 (by decide)
        · exact absurd h2.2 (by decide)
        · exact h3.1
      · intro hpad
        exact absurd hpad (by decide)⟩⟩

/-- Counterexample to C9 as stated: there is no single magic value shared as
byte 2 by all three activation command buffers — the pen command carries
0x04 there while the buttons and pad commands carry 0x02. -/
theorem c9_counterexample :
    ¬ ∃ magic : Nat,
      pen_output_report.getD 2 0 = magic ∧
      buttons_output_report.getD 2 0 = magic ∧
      pad_output_report.getD 2 0 = magic := by
  rintro ⟨magic, h1, h2, h3⟩
  simp [pen_output_report, buttons_output_report] at h1 h2
  omega

/-- C9 (amended): each of the three activation command buffers is 9 bytes
with byte 0 equal to the constant marker 9, byte 1 the subsystem selector
(1 = pen, 2 = buttons, 3 = pad), byte 2 a per-command magic value — 0x04 for
the pen command and 0x02 for the buttons and pad commands, not one value
shared by all three — and bytes 3 through 8 all zero. -/
theorem c9_output_reports :
    pen_output_report.length = 9 ∧
    buttons_output_report.length = 9 ∧
    pad_output_report.length = 9 ∧
    pen_output_report.getD 0 0 = 9 ∧
    buttons_output_report.getD 0 0 = 9 ∧
    pad_output_report.getD 0 0 = 9 ∧
    pen_output_report.getD 1 0 = 1 ∧
    buttons_output_report.getD 1 0 = 2 ∧
    pad_output_report.getD 1 0 = 3 ∧
    pen_output_report.getD 2 0 = 0x04 ∧
    buttons_output_report.getD 2 0 = 0x02 ∧
    pad_output_report.getD 2 0 = 0x02 ∧
    pen_output_report.drop 3 = List.replicate 6 0 ∧
    buttons_output_report.drop 3 = List.replicate 6 0 ∧
    pad_output_report.drop 3 = List.replicate 6 0 := by decide

/-- An OR-merge truncated to `w` bits only sees the low `w` bits of the
incoming mask. -/
theorem lor_mod_two_pow (a b w : Nat) :
    (a ||| b) % 2 ^ w = (a ||| b % 2 ^ w) % 2 ^ w := by
  apply Nat.eq_of_testBit_eq
  intro i
  rw [press_testBit, press_testBit, Nat.testBit_mod_two_pow]
  by_cases h : i < w <;> simp [h]

/-- An AND-NOT merge (complement on `v` bits) truncated to `w ≤ v` bits only
sees the low `w` bits of the incoming mask. -/
theorem land_not_mod_two_pow (a b v w : Nat) (hw : w ≤ v) :
    (a &&& ((2 ^ v - 1) ^^^ b)) % 2 ^ w =
      (a &&& ((2 ^ w - 1) ^^^ b % 2 ^ w)) % 2 ^ w := by
  apply Nat.eq_of_testBit_eq
  intro i
  rw [release_testBit _ _ v w i hw, release_testBit _ _ w w i (le_refl w),
    Nat.testBit_mod_two_pow]
  by_cases h : i < w <;> simp [h]

/-- Bits 0 and 1 of a truncated OR-merge ignore the high bits of the stored
wheel state. -/
theorem wheel_bits_press (w m i : Nat) (hi : i < 2) :
    ((w % 2 ^ 2 ||| m) % 2 ^ 8).testBit i = ((w ||| m) % 2 ^ 8).testBit i := by
  rw [press_testBit, press_testBit, Nat.testBit_mod_two_pow]
  simp [hi]

/-- Bits 0 and 1 of a truncated AND-NOT merge ignore the high bits of the
stored wheel state. -/
theorem wheel_bits_release (w m i : Nat) (hi : i < 2) :
    ((w % 2 ^ 2 &&& ((2 ^ 16 - 1) ^^^ m)) % 2 ^ 8).testBit i =
      ((w &&& ((2 ^ 16 - 1) ^^^ m)) % 2 ^ 8).testBit i := by
  rw [release_testBit _ _ 16 8 i (by omega), release_testBit _ _ 16 8 i (by omega),
    Nat.testBit_mod_two_pow]
  simp [hi]

/-- A wheel-group payload never changes the persisted button state. -/
theorem wheel_branch_buttons (dev : veikk_device) (data : List Nat)
    (h0 : byteAt data 0 ≠ 1) :
    (veikk_buttons_event data dev).1.buttons_state = dev.buttons_state := by
  by_cases h1 : byteAt data 1 ≠ 0
  · rw [veikk_buttons_event_fst_wheel_press dev data h0 h1]
  · rw [veikk_buttons_event_fst_wheel_release dev data h0 (not_not.mp h1)]

/-- Wheel state after a wheel-group press payload, at field level. -/
theorem wheel_branch_wheel_press (dev : veikk_device) (data : List Nat)
    (h0 : byteAt data 0 ≠ 1) (h1 : byteAt data 1 ≠ 0) :
    (veikk_buttons_event data dev).1.wheel_state =
      (dev.wheel_state |||
        get_unaligned_le16 (byteAt data 2) (byteAt data 3)) % 2 ^ 8 := by
  rw [veikk_buttons_event_fst_wheel_press dev data h0 h1]

/-- Wheel state after a wheel-group release payload, at field level. -/
theorem wheel_branch_wheel_release (dev : veikk_device) (data : List Nat)
    (h0 : byteAt data 0 ≠ 1) (h1 : byteAt data 1 = 0) :
    (veikk_buttons_event data dev).1.wheel_state =
      (dev.wheel_state &&&
        ((2 ^ 16 - 1) ^^^
          get_unaligned_le16 (byteAt data 2) (byteAt data 3))) % 2 ^ 8 := by
  rw [veikk_buttons_event_fst_wheel_release dev data h0 h1]

/-- C10: in the wheel-group branch (sub-type ≠ 1) the full 16-bit
little-endian incoming bitmask is merged into the 8-bit persisted wheel
state after truncation modulo 2^8 (bits 8-15 of the mask are discarded), the
emitted events are unchanged if the stored wheel state is first reduced
modulo 2^2, and the two wheel-direction events carry exactly bits 0 and 1 of
the resulting wheel state. -/
theorem c10_wheel_truncation (dev : veikk_device) (data : List Nat)
    (hsub : byteAt data 0 ≠ 1) :
    ((veikk_buttons_event data dev).1.wheel_state =
      (if byteAt data 1 ≠ 0 then
        (dev.wheel_state |||
          get_unaligned_le16 (byteAt data 2) (byteAt data 3) % 2 ^ 8) % 2 ^ 8
       else
        (dev.wheel_state &&&
          ((2 ^ 8 - 1) ^^^
            get_unaligned_le16 (byteAt data 2) (byteAt data 3) % 2 ^ 8)) % 2 ^ 8)) ∧
    (veikk_buttons_event data dev).2 =
      (veikk_buttons_event data
        { dev with wheel_state := dev.wheel_state % 2 ^ 2 }).2 ∧
    input_event.key .BTN_GEAR_DOWN
        ((veikk_buttons_event data dev).1.wheel_state.testBit 0) ∈
      (veikk_buttons_event data dev).2 ∧
    input_event.key .BTN_GEAR_UP
        ((veikk_buttons_event data dev).1.wheel_state.testBit 1) ∈
      (veikk_buttons_event data dev).2 := by
  refine ⟨?_, ?_, ?_, ?_⟩
  · by_cases h1 : byteAt data 1 ≠ 0
    · rw [veikk_buttons_event_fst_wheel_press dev data hsub h1, if_pos h1]
      exact lor_mod_two_pow _ _ 8
    · rw [veikk_buttons_event_fst_wheel_release dev data hsub (not_not.mp h1),
        if_neg h1]
      exact land_not_mod_two_pow _ _ 16 8 (by omega)
  · by_cases h1 : byteAt data 1 ≠ 0
    · rw [veikk_buttons_event_snd_spec dev data,
        veikk_buttons_event_snd_spec
          { dev with wheel_state := dev.wheel_state % 2 ^ 2 } data,
        wheel_branch_buttons dev data hsub,
        wheel_branch_buttons
          { dev with wheel_state := dev.wheel_state % 2 ^ 2 } data hsub,
        wheel_branch_wheel_press dev data hsub h1,
        wheel_branch_wheel_press
          { dev with wheel_state := dev.wheel_state % 2 ^ 2 } data hsub h1]
      show spec_buttons_events dev.buttons_state
          ((dev.wheel_state |||
            get_unaligned_le16 (byteAt data 2) (byteAt data 3)) % 2 ^ 8) =
        spec_buttons_events dev.buttons_state
          ((dev.wheel_state % 2 ^ 2 |||
            get_unaligned_le16 (byteAt data 2) (byteAt data 3)) % 2 ^ 8)
      simp only [spec_buttons_events]
      rw [wheel_bits_press _ _ 0 (by omega), wheel_bits_press _ _ 1 (by omega)]
    · rw [veikk_buttons_event_snd_spec dev data,
        veikk_buttons_event_snd_spec
          { dev with wheel_state := dev.wheel_state % 2 ^ 2 } data,
        wheel_branch_buttons dev data hsub,
        wheel_branch_buttons
          { dev with wheel_state := dev.wheel_state % 2 ^ 2 } data hsub,
        wheel_branch_wheel_release dev data hsub (not_not.mp h1),
        wheel_branch_wheel_release
          { dev with wheel_state := dev.wheel_state % 2 ^ 2 } data hsub
          (not_not.mp h1)]
      show spec_buttons_events dev.buttons_state
          ((dev.wheel_state &&&
            ((2 ^ 16 - 1) ^^^
              get_unaligned_le16 (byteAt data 2) (byteAt data 3))) % 2 ^ 8) =
        spec_buttons_events dev.buttons_state
          ((dev.wheel_state % 2 ^ 2 &&&
            ((2 ^ 16 - 1) ^^^
              get_unaligned_le16 (byteAt data 2) (byteAt data 3))) % 2 ^ 8)
      simp only [spec_buttons_events]
      rw [wheel_bits_release _ _ 0 (by omega), wheel_bits_release _ _ 1 (by omega)]
  · rw [veikk_buttons_event_snd_spec dev data]
    simp [spec_buttons_events]
  · rw [veikk_buttons_event_snd_spec dev data]
    simp [spec_buttons_events]

/-- Witness for C10 at a wheel-group press payload carrying the 16-bit mask
0x0102 on a fresh A30 context: bit 8 of the mask is discarded, the wheel
state becomes 2, and the wheel-direction up event is emitted pressed. -/
theorem c10_witness :
    byteAt [3, 1, 0x02, 0x01, 0, 0, 0] 0 ≠ 1 ∧
    (veikk_buttons_event [3, 1, 0x02, 0x01, 0, 0, 0]
      (veikk_probe_device veikk_model_0x0002)).1.wheel_state = 2 ∧
    input_event.key .BTN_GEAR_UP true ∈
      (veikk_buttons_event [3, 1, 0x02, 0x01, 0, 0, 0]
        (veikk_probe_device veikk_model_0x0002)).2 := by
  have h := c10_wheel_truncation (veikk_probe_device veikk_model_0x0002)
    [3, 1, 0x02, 0x01, 0, 0, 0] (by decide)
  refine ⟨by decide, ?_, ?_⟩
  · rw [h.1]
    decide
  · have hm := h.2.2.2
    have hv : (veikk_buttons_event [3, 1, 0x02, 0x01, 0, 0, 0]
        (veikk_probe_device veikk_model_0x0002)).1.wheel_state.testBit 1 = true := by
      decide
    rw [hv] at hm
    exact hm

end Veikk
